import Mathlib

set_option maxRecDepth 100000

/-!
Verification development for the procedural volumetric cloud pipeline of
`clouds.js`: the incremental skybox bake scheduler (`skyboxRenderingStage`,
`requestNewSkybox`, `renderNewSkybox`), the fragment-shader cloud density and
ray-march model (`sampleLayeredDensity`, `raymarching`, shader `main`), the
noise texture regeneration (`loadNewNoise`) and the hex color parser
(`hexToColor`).

Scheduler indices are JavaScript numbers holding small integers; they are
modelled as `ℤ` so that the defensive negative-index branches are meaningful.
Shader floats are modelled as `ℝ`; the random source of `Math.random` is
modelled as a stream of rationals in `[0,1)`.
-/

/-! ## Bake scheduler (clouds.js lines 131-146, 1320-1323, 1389-1569) -/

/-- Constant `SKYBOX_TILE_SIZE` in `clouds.js` (pixel size of one tile). -/
def SKYBOX_TILE_SIZE : ℤ := 128

/-- Constant `MAX_LIGHTNING_STAGES` in `clouds.js`. -/
def MAX_LIGHTNING_STAGES : ℤ := 1

/-- Constant `MAX_Y_TILES` in `clouds.js`. -/
def MAX_Y_TILES : ℤ := 8

/-- Constant `MAX_X_TILES` in `clouds.js`. -/
def MAX_X_TILES : ℤ := 8

/-- The scheduler cursor object `skyboxRenderingStage` of `clouds.js`. -/
structure SkyboxRenderingStage where
  newSkyboxRequested : Bool
  lightning : ℤ
  panel : ℤ
  y : ℤ
  x : ℤ
deriving DecidableEq

/-- Initial value of `skyboxRenderingStage` (clouds.js lines 139-146):
the bake starts in the completed position. -/
def initialStage : SkyboxRenderingStage :=
  { newSkyboxRequested := false
    lightning := MAX_LIGHTNING_STAGES
    panel := 6
    y := MAX_Y_TILES
    x := MAX_X_TILES }

/-- Function `requestNewSkybox` of `clouds.js`: sets the `newSkyboxRequested` flag. -/
def requestNewSkybox (s : SkyboxRenderingStage) : SkyboxRenderingStage :=
  { s with newSkyboxRequested := true }

/-- Observable outcome of one `renderNewSkybox` call: the updated cursor, the
`(panel, y, x)` triple passed to `renderPanelTexture` (or `none` when the call
returned without rendering), and whether any of the negative-index
`console.error` branches fired. -/
structure RenderStep where
  stage : SkyboxRenderingStage
  rendered : Option (ℤ × ℤ × ℤ)
  errorLogged : Bool
deriving DecidableEq

/-- The "Error checking" block of `renderNewSkybox` (clouds.js lines
1408-1434): any negative index is reset to 0. -/
def clampNegative (s : SkyboxRenderingStage) : SkyboxRenderingStage :=
  let s := if s.x < 0 then { s with x := 0 } else s
  let s := if s.y < 0 then { s with y := 0 } else s
  let s := if s.panel < 0 then { s with panel := 0 } else s
  if s.lightning < 0 then { s with lightning := 0 } else s

/-- Whether the "Error checking" block of `renderNewSkybox` calls
`console.error` (it does whenever some index is negative on entry). -/
def negativeLogged (s : SkyboxRenderingStage) : Bool :=
  decide (s.x < 0) || decide (s.y < 0) || decide (s.panel < 0) || decide (s.lightning < 0)

/-- The "Incrementing" block of `renderNewSkybox` (clouds.js lines 1436-1455):
carry in fixed order x overflow → y, y overflow → panel, panel overflow (≥6) →
lightning. -/
def carryOverflow (s : SkyboxRenderingStage) : SkyboxRenderingStage :=
  let s := if s.x ≥ MAX_X_TILES then { s with y := s.y + 1, x := 0 } else s
  let s := if s.y ≥ MAX_Y_TILES then { s with panel := s.panel + 1, y := 0 } else s
  if s.panel ≥ 6 then { s with lightning := s.lightning + 1, panel := 0 } else s

/-- The part of `renderNewSkybox` after the reset-on-request block (clouds.js
lines 1402-1568): terminal check, defensive negative clamps, carry/overflow
increments, re-check, panel switch (cases 0-5 select a face, default returns),
render one tile at the cursor, post-increment of `x`. -/
def renderActive (s : SkyboxRenderingStage) : RenderStep :=
  if s.lightning ≥ MAX_LIGHTNING_STAGES then
    { stage := s, rendered := none, errorLogged := false }
  else
    let errLog := negativeLogged s
    let s := carryOverflow (clampNegative s)
    if s.lightning ≥ MAX_LIGHTNING_STAGES then
      { stage := s, rendered := none, errorLogged := errLog }
    else if s.panel = 0 ∨ s.panel = 1 ∨ s.panel = 2 ∨ s.panel = 3 ∨ s.panel = 4 ∨ s.panel = 5 then
      { stage := { s with x := s.x + 1 }, rendered := some (s.panel, s.y, s.x),
        errorLogged := errLog }
    else
      { stage := s, rendered := none, errorLogged := errLog }

/-- Function `renderNewSkybox` of `clouds.js` (lines 1389-1569): if a new skybox was
requested, reset all rendering stages to 0 and clear the flag, then run the
active rendering step. -/
def renderNewSkybox (s0 : SkyboxRenderingStage) : RenderStep :=
  renderActive (if s0.newSkyboxRequested then
      { newSkyboxRequested := false, lightning := 0, panel := 0, y := 0, x := 0 }
    else s0)

/-- Cursor state after `n` consecutive `renderNewSkybox` calls. -/
def stepN : ℕ → SkyboxRenderingStage → SkyboxRenderingStage
  | 0, s => s
  | n + 1, s => stepN n (renderNewSkybox s).stage

/-- The `(panel, y, x)` triples rendered by `n` consecutive `renderNewSkybox`
calls starting from cursor `s`, in call order. -/
def renderTrace : SkyboxRenderingStage → ℕ → List (ℤ × ℤ × ℤ)
  | _, 0 => []
  | s, n + 1 =>
    (renderNewSkybox s).rendered.toList ++ renderTrace (renderNewSkybox s).stage n

/-- The full tile product `{0..5} × {0..MAX_Y_TILES-1} × {0..MAX_X_TILES-1}`
in the scheduler's x-major traversal order. -/
def fullTileList : List (ℤ × ℤ × ℤ) :=
  ((List.range 6) ×ˢ ((List.range 8) ×ˢ (List.range 8))).map
    fun t : ℕ × ℕ × ℕ => ((t.1 : ℤ), (t.2.1 : ℤ), (t.2.2 : ℤ))

lemma renderNewSkybox_requested (l p y x : ℤ) :
    renderNewSkybox ⟨true, l, p, y, x⟩ = renderNewSkybox ⟨true, 0, 0, 0, 0⟩ := rfl

lemma renderTrace_requested (n : ℕ) (l p y x : ℤ) :
    renderTrace ⟨true, l, p, y, x⟩ n = renderTrace ⟨true, 0, 0, 0, 0⟩ n := by
  cases n with
  | zero => rfl
  | succ n => simp only [renderTrace, renderNewSkybox_requested]

lemma fullTileList_nodup : fullTileList.Nodup := by
  apply List.Nodup.map
  · intro a b h
    obtain ⟨a1, a2, a3⟩ := a
    obtain ⟨b1, b2, b3⟩ := b
    dsimp only at h
    injection h with h1 h
    injection h with h2 h3
    rw [Prod.mk.injEq, Prod.mk.injEq]
    omega
  · exact List.Nodup.product (List.nodup_range _)
      (List.Nodup.product (List.nodup_range _) (List.nodup_range _))

lemma fullTileList_mem (t : ℤ × ℤ × ℤ) :
    t ∈ fullTileList ↔
      0 ≤ t.1 ∧ t.1 < 6 ∧ 0 ≤ t.2.1 ∧ t.2.1 < 8 ∧ 0 ≤ t.2.2 ∧ t.2.2 < 8 := by
  obtain ⟨a, b, c⟩ := t
  dsimp only
  constructor
  · intro h
    simp only [fullTileList, List.mem_map] at h
    obtain ⟨⟨p, y, a'⟩, hmem, h⟩ := h
    simp only [List.mem_product, List.mem_range] at hmem
    obtain ⟨hp, hy, ha⟩ := hmem
    dsimp only at h
    injection h with h1 h
    injection h with h2 h3
    omega
  · intro h
    simp only [fullTileList, List.mem_map]
    refine ⟨(a.toNat, b.toNat, c.toNat), ?_, ?_⟩
    · simp only [List.mem_product, List.mem_range]
      omega
    · dsimp only
      rw [Int.toNat_of_nonneg h.1, Int.toNat_of_nonneg h.2.2.1,
        Int.toNat_of_nonneg h.2.2.2.2.1]

set_option maxHeartbeats 4000000 in
lemma renderTrace_requested_384 :
    renderTrace ⟨true, 0, 0, 0, 0⟩ 384 = fullTileList := by decide

/-- C1. Tile coverage completeness: starting from any cursor in which a new
bake has been requested, the `MAX_LIGHTNING_STAGES × 6 × MAX_Y_TILES ×
MAX_X_TILES = 384` following `renderNewSkybox` calls render a duplicate-free
sequence of `(panel, y, x)` tiles that covers exactly the full product
`{0..5} × {0..MAX_Y_TILES-1} × {0..MAX_X_TILES-1}`: every tile of every face
is rendered exactly once. -/
theorem C1_tile_coverage (l p y x : ℤ) :
    (renderTrace ⟨true, l, p, y, x⟩ 384).Nodup ∧
      ∀ t : ℤ × ℤ × ℤ, t ∈ renderTrace ⟨true, l, p, y, x⟩ 384 ↔
        0 ≤ t.1 ∧ t.1 < 6 ∧ 0 ≤ t.2.1 ∧ t.2.1 < MAX_Y_TILES ∧
          0 ≤ t.2.2 ∧ t.2.2 < MAX_X_TILES := by
  rw [renderTrace_requested, renderTrace_requested_384]
  exact ⟨fullTileList_nodup, fun t => fullTileList_mem t⟩

/-- C2 counterexample: with the bake in progress at cursor
`x = MAX_X_TILES - 1` (lightning 0, panel 0, y 0, no new bake requested), one
`renderNewSkybox` call renders the tile at `x = MAX_X_TILES - 1` and leaves
`x = MAX_X_TILES` with `y` unchanged; it does not produce `x = 0, y = 1` as
the claim states — the carry only fires on the following call. -/
theorem C2_counterexample :
    (renderNewSkybox ⟨false, 0, 0, 0, MAX_X_TILES - 1⟩).stage.x = MAX_X_TILES ∧
    (renderNewSkybox ⟨false, 0, 0, 0, MAX_X_TILES - 1⟩).stage.y = 0 ∧
    (renderNewSkybox ⟨false, 0, 0, 0, MAX_X_TILES - 1⟩).rendered =
      some (0, 0, MAX_X_TILES - 1) ∧
    ¬ ((renderNewSkybox ⟨false, 0, 0, 0, MAX_X_TILES - 1⟩).stage.x = 0 ∧
       (renderNewSkybox ⟨false, 0, 0, 0, MAX_X_TILES - 1⟩).stage.y = 0 + 1) := by
  decide

/-- C2 (amended). Overflow carry: if the cursor holds the overflowed value
`x = MAX_X_TILES` (as left behind by the call that rendered the last tile of a
row) with the bake in progress (`lightning = 0`, `0 ≤ panel < 6`,
`0 ≤ y < MAX_Y_TILES`) and no new bake requested, then a single
`renderNewSkybox` call performs the carry in the fixed order
x overflow → y++, y overflow → panel++, panel overflow (≥6) → lightningStage++:
`x` resets to 0 and `y` is incremented (or, if `y` was at its maximum, `panel`
is incremented with `y` reset to 0; if `panel` was also at its maximum the
lightning stage increments and the bake terminates without rendering). When a
tile is rendered it is the tile at the carried cursor, after which `x` holds 1
from the post-render increment. -/
theorem C2_overflow_carry (p y : ℤ) (hp0 : 0 ≤ p) (hp : p < 6)
    (hy0 : 0 ≤ y) (hy : y < MAX_Y_TILES) :
    if y + 1 < MAX_Y_TILES then
      renderNewSkybox ⟨false, 0, p, y, MAX_X_TILES⟩ =
        { stage := ⟨false, 0, p, y + 1, 1⟩, rendered := some (p, y + 1, 0),
          errorLogged := false }
    else if p + 1 < 6 then
      renderNewSkybox ⟨false, 0, p, y, MAX_X_TILES⟩ =
        { stage := ⟨false, 0, p + 1, 0, 1⟩, rendered := some (p + 1, 0, 0),
          errorLogged := false }
    else
      renderNewSkybox ⟨false, 0, p, y, MAX_X_TILES⟩ =
        { stage := ⟨false, 1, 0, 0, 0⟩, rendered := none,
          errorLogged := false } := by
  have hy8 : y < 8 := by simpa [MAX_Y_TILES] using hy
  interval_cases p <;> interval_cases y <;> decide

/-- Witness for C2: concrete instance at `panel = 0`, `y = 0`. -/
theorem C2_overflow_carry_witness :
    (0 : ℤ) ≤ 0 ∧ (0 : ℤ) < 6 ∧ (0 : ℤ) < MAX_Y_TILES ∧
      (if (0 : ℤ) + 1 < MAX_Y_TILES then
        renderNewSkybox ⟨false, 0, 0, 0, MAX_X_TILES⟩ =
          { stage := ⟨false, 0, 0, 0 + 1, 1⟩, rendered := some (0, 0 + 1, 0),
            errorLogged := false }
      else if (0 : ℤ) + 1 < 6 then
        renderNewSkybox ⟨false, 0, 0, 0, MAX_X_TILES⟩ =
          { stage := ⟨false, 0, 0 + 1, 0, 1⟩, rendered := some (0 + 1, 0, 0),
            errorLogged := false }
      else
        renderNewSkybox ⟨false, 0, 0, 0, MAX_X_TILES⟩ =
          { stage := ⟨false, 1, 0, 0, 0⟩, rendered := none,
            errorLogged := false }) :=
  ⟨le_refl 0, by decide, by decide,
    C2_overflow_carry 0 0 (le_refl 0) (by decide) (le_refl 0) (by decide)⟩

/-- C4. Idempotent restart: issuing `requestNewSkybox` twice in immediate
succession and then `n` `renderNewSkybox` calls yields exactly the same
scheduler cursor state (all four indices and the request flag) as a single
`requestNewSkybox` followed by `n` calls. -/
theorem C4_idempotent_restart (s : SkyboxRenderingStage) (n : ℕ) :
    stepN n (requestNewSkybox (requestNewSkybox s)) = stepN n (requestNewSkybox s) := rfl

/-! ### Reachable cursor states and the defensive negative clamps (C7) -/

/-- All four cursor components are non-negative. -/
def StageNonneg (s : SkyboxRenderingStage) : Prop :=
  0 ≤ s.lightning ∧ 0 ≤ s.panel ∧ 0 ≤ s.y ∧ 0 ≤ s.x

/-- Cursor states reachable from the initial `skyboxRenderingStage` by any
sequence of `requestNewSkybox` and `renderNewSkybox` calls. -/
inductive ReachableStage : SkyboxRenderingStage → Prop
  | init : ReachableStage initialStage
  | request {s : SkyboxRenderingStage} :
      ReachableStage s → ReachableStage (requestNewSkybox s)
  | advance {s : SkyboxRenderingStage} :
      ReachableStage s → ReachableStage (renderNewSkybox s).stage

lemma clampNegative_id {s : SkyboxRenderingStage} (h : StageNonneg s) :
    clampNegative s = s := by
  obtain ⟨req, l, p, y, x⟩ := s
  obtain ⟨h1, h2, h3, h4⟩ := h
  simp only [clampNegative]
  split_ifs <;> first | rfl | (exfalso; dsimp only at *; omega)

lemma negativeLogged_false {s : SkyboxRenderingStage} (h : StageNonneg s) :
    negativeLogged s = false := by
  obtain ⟨h1, h2, h3, h4⟩ := h
  simp only [negativeLogged, Bool.or_eq_false_iff, decide_eq_false_iff_not]
  omega

lemma carryOverflow_nonneg {s : SkyboxRenderingStage} (h : StageNonneg s) :
    StageNonneg (carryOverflow s) := by
  obtain ⟨req, l, p, y, x⟩ := s
  obtain ⟨h1, h2, h3, h4⟩ := h
  simp only [StageNonneg, carryOverflow]
  split_ifs <;> refine ⟨?_, ?_, ?_, ?_⟩ <;> dsimp only at * <;> omega

lemma renderActive_step {s : SkyboxRenderingStage} (h : StageNonneg s) :
    StageNonneg (renderActive s).stage ∧ (renderActive s).errorLogged = false := by
  obtain ⟨c1, c2, c3, c4⟩ := carryOverflow_nonneg h
  simp only [renderActive, clampNegative_id h, negativeLogged_false h]
  split_ifs <;>
    first
      | exact ⟨h, rfl⟩
      | exact ⟨⟨c1, c2, c3, c4⟩, rfl⟩
      | exact ⟨⟨c1, c2, c3, by dsimp only; omega⟩, rfl⟩

lemma renderNewSkybox_step {s : SkyboxRenderingStage} (h : StageNonneg s) :
    StageNonneg (renderNewSkybox s).stage ∧ (renderNewSkybox s).errorLogged = false := by
  obtain ⟨req, l, p, y, x⟩ := s
  cases req with
  | true =>
    have : renderNewSkybox ⟨true, l, p, y, x⟩ = renderActive ⟨false, 0, 0, 0, 0⟩ := rfl
    rw [this]
    exact renderActive_step ⟨by decide, by decide, by decide, by decide⟩
  | false =>
    have : renderNewSkybox ⟨false, l, p, y, x⟩ = renderActive ⟨false, l, p, y, x⟩ := rfl
    rw [this]
    exact renderActive_step h

lemma reachable_nonneg {s : SkyboxRenderingStage} (h : ReachableStage s) :
    StageNonneg s := by
  induction h with
  | init => exact ⟨by decide, by decide, by decide, by decide⟩
  | request _ ih => exact ih
  | advance _ ih => exact (renderNewSkybox_step ih).1

/-- C7. The defensive negative-cursor clamp never triggers: every cursor state
reachable from the initial state by restart requests and advance calls has all
four components non-negative, and a `renderNewSkybox` call entered from such a
state never executes any of the four error branches that log and reset a
negative component. -/
theorem C7_no_negative_clamp (s : SkyboxRenderingStage) (h : ReachableStage s) :
    StageNonneg s ∧ (renderNewSkybox s).errorLogged = false :=
  ⟨reachable_nonneg h, (renderNewSkybox_step (reachable_nonneg h)).2⟩

/-- Witness for C7: the initial state is reachable, non-negative, and its
advance call logs no error. -/
theorem C7_no_negative_clamp_witness :
    StageNonneg initialStage ∧ (renderNewSkybox initialStage).errorLogged = false :=
  C7_no_negative_clamp initialStage ReachableStage.init

/-! ## Cloud fragment shader (cloudShader.fragmentShaderCode, clouds.js lines 268-586)

GLSL floats are modelled as `ℝ`; the noise texture bound to `u_sampler` is an
arbitrary function `Vec2 → Vec4` (a texel lookup). -/

/-- GLSL `vec2`. -/
structure Vec2 where
  x : ℝ
  y : ℝ

/-- GLSL `vec3`. -/
structure Vec3 where
  x : ℝ
  y : ℝ
  z : ℝ

/-- GLSL `vec4` (`w` doubles as the `a` alpha component). -/
structure Vec4 where
  x : ℝ
  y : ℝ
  z : ℝ
  w : ℝ

/-- The `.xyz` swizzle of a `vec4`. -/
def Vec4.xyz (v : Vec4) : Vec3 := ⟨v.x, v.y, v.z⟩

/-- Componentwise `vec3` addition. -/
def vadd3 (a b : Vec3) : Vec3 := ⟨a.x + b.x, a.y + b.y, a.z + b.z⟩

/-- Componentwise `vec3` subtraction. -/
def vsub3 (a b : Vec3) : Vec3 := ⟨a.x - b.x, a.y - b.y, a.z - b.z⟩

/-- Scalar times `vec3`. -/
def smul3 (t : ℝ) (v : Vec3) : Vec3 := ⟨t * v.x, t * v.y, t * v.z⟩

/-- Componentwise `vec3` division by a scalar. -/
noncomputable def vdiv3 (v : Vec3) (t : ℝ) : Vec3 := ⟨v.x / t, v.y / t, v.z / t⟩

/-- GLSL `dot` on `vec3`. -/
def dot3 (a b : Vec3) : ℝ := a.x * b.x + a.y * b.y + a.z * b.z

/-- GLSL `length` on `vec3`. -/
noncomputable def glLength3 (v : Vec3) : ℝ :=
  Real.sqrt (v.x * v.x + v.y * v.y + v.z * v.z)

/-- GLSL `normalize` on `vec3` (`v / length(v)`). -/
noncomputable def normalize3 (v : Vec3) : Vec3 :=
  ⟨v.x / glLength3 v, v.y / glLength3 v, v.z / glLength3 v⟩

/-- GLSL scalar `mix(a, b, t) = a⋅(1−t) + b⋅t`. -/
def glMix (a b t : ℝ) : ℝ := a * (1 - t) + b * t

/-- GLSL scalar `clamp(v, lo, hi) = min(max(v, lo), hi)`. -/
def glClamp (v lo hi : ℝ) : ℝ := min (max v lo) hi

/-- GLSL `floor` (as a real number). -/
noncomputable def glFloor (v : ℝ) : ℝ := (⌊v⌋ : ℤ)

/-- GLSL `fract(v) = v − floor(v)`. -/
noncomputable def glFract (v : ℝ) : ℝ := Int.fract v

/-- The uniform state consumed by `cloudShader.fragmentShaderCode`: noise
volume sampler and tiling dimensions, the five noise-layer settings, ray-march
step settings, palette colors, sun direction, sun-ray step settings, light
absorption and fog. -/
structure CloudConfig where
  dimension : ℝ
  rowLength : ℝ
  sampler : Vec2 → Vec4
  noise1InputSettings : Vec4
  noise1OutputSettings : Vec2
  noise2InputSettings : Vec4
  noise2OutputSettings : Vec2
  noise3InputSettings : Vec4
  noise3OutputSettings : Vec2
  noise4InputSettings : Vec4
  noise4OutputSettings : Vec2
  noise5InputSettings : Vec4
  noise5OutputSettings : Vec2
  stepSettings : Vec4
  skyColor : Vec3
  darkColor : Vec3
  lightColor : Vec3
  sunDir : Vec3
  sunStepSettings : Vec2
  lightAbsorption : ℝ
  fog : ℝ

/-- Shader function `vol3D`: 3D texture lookup emulated over the 2D
tiled noise texture. -/
noncomputable def vol3D (sampler : Vec2 → Vec4) (coord : Vec3)
    (tileDimension rowLength : ℝ) : Vec4 :=
  let tileIndex := glFloor (coord.z * tileDimension) / rowLength
  let tileCoordX := glFract tileIndex * rowLength
  let tileCoordY := glFloor tileIndex
  sampler ⟨(tileCoordX + coord.x) / rowLength, (tileCoordY + coord.y) / rowLength⟩

/-- Shader function `noise3D`: tiled 3D gradient noise by trilinear
interpolation of gradient dot-products at the eight lattice corners. -/
noncomputable def noise3D (cfg : CloudConfig) (stu0 : Vec3) : ℝ :=
  let dim := cfg.dimension
  let stu := smul3 dim stu0
  let stu_i : Vec3 := ⟨glFloor stu.x, glFloor stu.y, glFloor stu.z⟩
  let stu_f : Vec3 := ⟨glFract stu.x, glFract stu.y, glFract stu.z⟩
  let sm : Vec3 :=
    ⟨stu_f.x * stu_f.x * stu_f.x * (stu_f.x * (stu_f.x * 6 - 15) + 10),
     stu_f.y * stu_f.y * stu_f.y * (stu_f.y * (stu_f.y * 6 - 15) + 10),
     stu_f.z * stu_f.z * stu_f.z * (stu_f.z * (stu_f.z * 6 - 15) + 10)⟩
  let i000 := stu_i
  let i100 := vadd3 stu_i ⟨1, 0, 0⟩
  let i100 := if i100.x ≥ dim then { i100 with x := i100.x - dim } else i100
  let i010 := vadd3 stu_i ⟨0, 1, 0⟩
  let i010 := if i010.y ≥ dim then { i010 with y := i010.y - dim } else i010
  let i110 := vadd3 stu_i ⟨1, 1, 0⟩
  let i110 := if i110.x ≥ dim then { i110 with x := i110.x - dim } else i110
  let i110 := if i110.y ≥ dim then { i110 with y := i110.y - dim } else i110
  let i001 := vadd3 stu_i ⟨0, 0, 1⟩
  let i001 := if i001.z ≥ dim then { i001 with z := i001.z - dim } else i001
  let i101 := vadd3 stu_i ⟨1, 0, 1⟩
  let i101 := if i101.x ≥ dim then { i101 with x := i101.x - dim } else i101
  let i101 := if i101.z ≥ dim then { i101 with z := i101.z - dim } else i101
  let i011 := vadd3 stu_i ⟨0, 1, 1⟩
  let i011 := if i011.y ≥ dim then { i011 with y := i011.y - dim } else i011
  let i011 := if i011.z ≥ dim then { i011 with z := i011.z - dim } else i011
  let i111 := vadd3 stu_i ⟨1, 1, 1⟩
  let i111 := if i111.x ≥ dim then { i111 with x := i111.x - dim } else i111
  let i111 := if i111.y ≥ dim then { i111 with y := i111.y - dim } else i111
  let i111 := if i111.z ≥ dim then { i111 with z := i111.z - dim } else i111
  let f000 := (vol3D cfg.sampler (vdiv3 i000 dim) dim cfg.rowLength).xyz
  let f100 := (vol3D cfg.sampler (vdiv3 i100 dim) dim cfg.rowLength).xyz
  let f010 := (vol3D cfg.sampler (vdiv3 i010 dim) dim cfg.rowLength).xyz
  let f110 := (vol3D cfg.sampler (vdiv3 i110 dim) dim cfg.rowLength).xyz
  let f001 := (vol3D cfg.sampler (vdiv3 i001 dim) dim cfg.rowLength).xyz
  let f101 := (vol3D cfg.sampler (vdiv3 i101 dim) dim cfg.rowLength).xyz
  let f011 := (vol3D cfg.sampler (vdiv3 i011 dim) dim cfg.rowLength).xyz
  let f111 := (vol3D cfg.sampler (vdiv3 i111 dim) dim cfg.rowLength).xyz
  let c000 := normalize3 (vsub3 (smul3 2 f000) ⟨1, 1, 1⟩)
  let c100 := normalize3 (vsub3 (smul3 2 f100) ⟨1, 1, 1⟩)
  let c010 := normalize3 (vsub3 (smul3 2 f010) ⟨1, 1, 1⟩)
  let c110 := normalize3 (vsub3 (smul3 2 f110) ⟨1, 1, 1⟩)
  let c001 := normalize3 (vsub3 (smul3 2 f001) ⟨1, 1, 1⟩)
  let c101 := normalize3 (vsub3 (smul3 2 f101) ⟨1, 1, 1⟩)
  let c011 := normalize3 (vsub3 (smul3 2 f011) ⟨1, 1, 1⟩)
  let c111 := normalize3 (vsub3 (smul3 2 f111) ⟨1, 1, 1⟩)
  let d000 := dot3 c000 (vsub3 stu_f ⟨0, 0, 0⟩)
  let d100 := dot3 c100 (vsub3 stu_f ⟨1, 0, 0⟩)
  let d010 := dot3 c010 (vsub3 stu_f ⟨0, 1, 0⟩)
  let d110 := dot3 c110 (vsub3 stu_f ⟨1, 1, 0⟩)
  let d001 := dot3 c001 (vsub3 stu_f ⟨0, 0, 1⟩)
  let d101 := dot3 c101 (vsub3 stu_f ⟨1, 0, 1⟩)
  let d011 := dot3 c011 (vsub3 stu_f ⟨0, 1, 1⟩)
  let d111 := dot3 c111 (vsub3 stu_f ⟨1, 1, 1⟩)
  glMix
    (glMix (glMix d000 d100 sm.x) (glMix d010 d110 sm.x) sm.y)
    (glMix (glMix d001 d101 sm.x) (glMix d011 d111 sm.x) sm.y)
    sm.z

/-- Shader function `wrapVolumeCoords`. -/
noncomputable def wrapVolumeCoords (coord0 : Vec3) : Vec3 :=
  let coord : Vec3 := ⟨glFract coord0.x, glFract coord0.y, glFract coord0.z⟩
  let coord := if coord.x < 0 then { coord with x := coord.x + 1 } else coord
  let coord := if coord.y < 0 then { coord with y := coord.y + 1 } else coord
  if coord.z < 0 then { coord with z := coord.z + 1 } else coord

/-- Shader function `sampleDensity`: one noise layer, with input
scale/translation and output slope/offset, clamped to `[0,1]`. -/
noncomputable def sampleDensity (cfg : CloudConfig) (stu : Vec3) (scale : ℝ)
    (translation : Vec3) (slope offset : ℝ) : ℝ :=
  glClamp (noise3D cfg (wrapVolumeCoords (vadd3 (smul3 scale stu) translation)) * slope + offset) 0 1

/-- Shader function `sampleLayeredDensity`: the sum of the five noise
layers, clamped to `[0,1]`. -/
noncomputable def sampleLayeredDensity (cfg : CloudConfig) (stu : Vec3) : ℝ :=
  let density := sampleDensity cfg stu cfg.noise1InputSettings.w
    cfg.noise1InputSettings.xyz cfg.noise1OutputSettings.x cfg.noise1OutputSettings.y
  let density := density + sampleDensity cfg stu cfg.noise2InputSettings.w
    cfg.noise2InputSettings.xyz cfg.noise2OutputSettings.x cfg.noise2OutputSettings.y
  let density := density + sampleDensity cfg stu cfg.noise3InputSettings.w
    cfg.noise3InputSettings.xyz cfg.noise3OutputSettings.x cfg.noise3OutputSettings.y
  let density := density + sampleDensity cfg stu cfg.noise4InputSettings.w
    cfg.noise4InputSettings.xyz cfg.noise4OutputSettings.x cfg.noise4OutputSettings.y
  let density := density + sampleDensity cfg stu cfg.noise5InputSettings.w
    cfg.noise5InputSettings.xyz cfg.noise5OutputSettings.x cfg.noise5OutputSettings.y
  glClamp density 0 1

/-- The near-field falloff applied to a sampled density in `raymarching`
(`density = mix(0.0, density, (sampleDistance - densityFalloffEnd) /
densityFalloffSize)` when `sampleDistance < densityFalloffStart`). -/
noncomputable def falloffDensity (density sampleDistance dfStart dfEnd dfSize : ℝ) : ℝ :=
  if sampleDistance < dfStart then
    glMix 0 density ((sampleDistance - dfEnd) / dfSize)
  else density

/-- The secondary sun-ray loop of `raymarching` (`for (int j=0; j<50; j++)`),
as fuel-indexed iteration. Returns the resulting `densityToSun` together with
the number of loop-body executions. -/
noncomputable def sunMarch (cfg : CloudConfig) (sunDir currentPos : Vec3)
    (dfStart dfEnd dfSize : ℝ) : ℕ → ℝ → ℝ → ℝ × ℕ
  | 0, _, densityToSun => (densityToSun, 0)
  | j + 1, tsun, densityToSun =>
    let newPos := vadd3 currentPos (smul3 tsun (smul3 (-1) sunDir))
    let sampleDistance := glLength3 newPos
    let densityToSun := if sampleDistance ≥ dfEnd then
        glClamp (densityToSun +
          falloffDensity (sampleLayeredDensity cfg newPos) sampleDistance dfStart dfEnd dfSize) 0 1
      else densityToSun
    let tsun := tsun + cfg.sunStepSettings.y
    if densityToSun ≥ 1 then (1, 1)
    else if tsun > cfg.sunStepSettings.x then (densityToSun, 1)
    else
      let r := sunMarch cfg sunDir currentPos dfStart dfEnd dfSize j tsun densityToSun
      (r.1, r.2 + 1)

/-- The primary view-ray loop of `raymarching` (`for (int i=0; i<200; i++)`),
as fuel-indexed iteration over the accumulated `cloudColor` and the ray
parameter `t`. Returns the final `cloudColor` and the number of loop-body
executions. The source statement `clamp(cloudColor, 0.0, 1.0);` discards its
result (GLSL `clamp` is pure), so it has no effect and no counterpart here. -/
noncomputable def cloudMarch (cfg : CloudConfig) (ro rd sunDir skyColor : Vec3)
    (dfStart dfEnd dfSize : ℝ) : ℕ → Vec4 → ℝ → Vec4 × ℕ
  | 0, cloudColor, _ => (cloudColor, 0)
  | i + 1, cloudColor, t =>
    let currentPos := vadd3 ro (smul3 t rd)
    let sampleDistance := glLength3 currentPos
    let density := falloffDensity (sampleLayeredDensity cfg currentPos)
      sampleDistance dfStart dfEnd dfSize
    let cloudColor' := if density > 0.01 then
        let densityToSun :=
          (sunMarch cfg sunDir currentPos dfStart dfEnd dfSize 50 0 density).1
        let brightness := Real.exp (-1 * cfg.lightAbsorption * densityToSun)
        let pointColor : Vec4 :=
          ⟨glMix cfg.darkColor.x cfg.lightColor.x brightness,
            glMix cfg.darkColor.y cfg.lightColor.y brightness,
            glMix cfg.darkColor.z cfg.lightColor.z brightness, density⟩
        let fogFactor := Real.exp (-1 * cfg.fog * t)
        let pointColor : Vec4 :=
          ⟨glMix skyColor.x pointColor.x fogFactor,
            glMix skyColor.y pointColor.y fogFactor,
            glMix skyColor.z pointColor.z fogFactor, pointColor.w⟩
        let pointColor : Vec4 :=
          ⟨pointColor.x * pointColor.w, pointColor.y * pointColor.w,
            pointColor.z * pointColor.w, pointColor.w⟩
        ⟨cloudColor.x + pointColor.x * (1 - cloudColor.w),
          cloudColor.y + pointColor.y * (1 - cloudColor.w),
          cloudColor.z + pointColor.z * (1 - cloudColor.w),
          cloudColor.w + pointColor.w * (1 - cloudColor.w)⟩
      else cloudColor
    let t := t + cfg.stepSettings.w
    if cloudColor'.w ≥ 1 then ({ cloudColor' with w := 1 }, 1)
    else if t > cfg.stepSettings.z then (cloudColor', 1)
    else
      let r := cloudMarch cfg ro rd sunDir skyColor dfStart dfEnd dfSize i cloudColor' t
      (r.1, r.2 + 1)

/-- Shader function `raymarching`: march the view ray from `tmin`,
accumulating front-to-back alpha-composited cloud color. -/
noncomputable def raymarching (cfg : CloudConfig) (ro rd sunDir skyColor : Vec3) : Vec4 :=
  let tmin := cfg.stepSettings.x
  let tdensityFalloff := cfg.stepSettings.y
  let densityFalloffStart := glLength3 (vadd3 ro (smul3 tdensityFalloff rd))
  let densityFalloffEnd := glLength3 (vadd3 ro (smul3 tmin rd))
  let densityFalloffSize := densityFalloffStart - densityFalloffEnd
  (cloudMarch cfg ro rd sunDir skyColor densityFalloffStart densityFalloffEnd
    densityFalloffSize 200 ⟨0, 0, 0, 0⟩ tmin).1

/-- Number of primary loop-body executions performed by `raymarching`. -/
noncomputable def raymarchingSteps (cfg : CloudConfig) (ro rd sunDir skyColor : Vec3) : ℕ :=
  let tmin := cfg.stepSettings.x
  let tdensityFalloff := cfg.stepSettings.y
  let densityFalloffStart := glLength3 (vadd3 ro (smul3 tdensityFalloff rd))
  let densityFalloffEnd := glLength3 (vadd3 ro (smul3 tmin rd))
  let densityFalloffSize := densityFalloffStart - densityFalloffEnd
  (cloudMarch cfg ro rd sunDir skyColor densityFalloffStart densityFalloffEnd
    densityFalloffSize 200 ⟨0, 0, 0, 0⟩ tmin).2

/-- Shader entry point `main`: normalize the sun direction and the ray
direction derived from the interpolated vertex position, suppress the center
cross artifact, ray-march from the origin, and composite over the sky color. -/
noncomputable def shaderMain (cfg : CloudConfig) (vertexPosition : Vec4) : Vec4 :=
  let sunDir := normalize3 cfg.sunDir
  let rd := normalize3 vertexPosition.xyz
  let rd := if rd.x > -0.0001 ∧ rd.x < 0.0001 then { rd with x := 0 } else rd
  let rd := if rd.y > -0.0001 ∧ rd.y < 0.0001 then { rd with y := 0 } else rd
  let ro : Vec3 := ⟨0, 0, 0⟩
  let finalColor := cfg.skyColor
  let cloudColoring := raymarching cfg ro rd sunDir finalColor
  let finalColor : Vec3 :=
    ⟨glClamp (cloudColoring.x + finalColor.x * (1 - cloudColoring.w)) 0 1,
      glClamp (cloudColoring.y + finalColor.y * (1 - cloudColoring.w)) 0 1,
      glClamp (cloudColoring.z + finalColor.z * (1 - cloudColoring.w)) 0 1⟩
  ⟨finalColor.x, finalColor.y, finalColor.z, 1⟩

lemma glClamp01_nonneg (v : ℝ) : 0 ≤ glClamp v 0 1 :=
  le_min (le_max_right v 0) zero_le_one

lemma glClamp01_le_one (v : ℝ) : glClamp v 0 1 ≤ 1 :=
  min_le_right _ _

lemma sampleLayeredDensity_mem (cfg : CloudConfig) (stu : Vec3) :
    0 ≤ sampleLayeredDensity cfg stu ∧ sampleLayeredDensity cfg stu ≤ 1 :=
  ⟨glClamp01_nonneg _, glClamp01_le_one _⟩

lemma cloudMarch_alpha (cfg : CloudConfig) (ro rd sunDir skyColor : Vec3)
    (dfStart dfEnd dfSize : ℝ) :
    ∀ (n : ℕ) (c : Vec4) (t : ℝ), 0 ≤ c.w → c.w ≤ 1 →
      0 ≤ (cloudMarch cfg ro rd sunDir skyColor dfStart dfEnd dfSize n c t).1.w ∧
        (cloudMarch cfg ro rd sunDir skyColor dfStart dfEnd dfSize n c t).1.w ≤ 1 := by
  intro n
  induction n with
  | zero => intro c t h0 h1; exact ⟨h0, h1⟩
  | succ n ih =>
    intro c t h0 h1
    simp only [cloudMarch]
    split_ifs with hd hw ht hw ht
    · exact ⟨zero_le_one, le_refl 1⟩
    · refine ⟨?_, ?_⟩ <;> dsimp only at hw ⊢ <;> nlinarith
    · refine ih _ _ ?_ ?_ <;> dsimp only at hw ⊢ <;> nlinarith
    · exact ⟨zero_le_one, le_refl 1⟩
    · exact ⟨h0, le_of_not_le (by simpa using hw)⟩
    · exact ih _ _ h0 (le_of_not_le (by simpa using hw))

/-- C3. Density clamp invariant: for every uniform configuration and every
sample point, `sampleLayeredDensity` returns a value in `[0,1]`; and for every
uniform configuration, ray origin, ray direction, sun direction and sky color,
the accumulated alpha component of the `raymarching` result lies in `[0,1]`,
the invariant being maintained across the front-to-back compositing loop where
each per-point alpha contribution is `density * (1 - accumulatedAlpha)`. -/
theorem C3_density_clamp :
    (∀ (cfg : CloudConfig) (stu : Vec3),
      0 ≤ sampleLayeredDensity cfg stu ∧ sampleLayeredDensity cfg stu ≤ 1) ∧
    (∀ (cfg : CloudConfig) (ro rd sunDir skyColor : Vec3),
      0 ≤ (raymarching cfg ro rd sunDir skyColor).w ∧
        (raymarching cfg ro rd sunDir skyColor).w ≤ 1) :=
  ⟨sampleLayeredDensity_mem, fun cfg ro rd sunDir skyColor =>
    cloudMarch_alpha cfg ro rd sunDir skyColor _ _ _ 200 ⟨0, 0, 0, 0⟩ _
      (le_refl 0) zero_le_one⟩

lemma sunMarch_count_le (cfg : CloudConfig) (sunDir currentPos : Vec3)
    (dfStart dfEnd dfSize : ℝ) :
    ∀ (n : ℕ) (tsun densityToSun : ℝ),
      (sunMarch cfg sunDir currentPos dfStart dfEnd dfSize n tsun densityToSun).2 ≤ n := by
  intro n
  induction n with
  | zero => intro tsun densityToSun; exact le_refl 0
  | succ n ih =>
    intro tsun densityToSun
    simp only [sunMarch]
    split_ifs <;> dsimp only <;>
      first
        | omega
        | exact Nat.succ_le_succ (ih _ _)

lemma cloudMarch_count_le (cfg : CloudConfig) (ro rd sunDir skyColor : Vec3)
    (dfStart dfEnd dfSize : ℝ) :
    ∀ (n : ℕ) (c : Vec4) (t : ℝ),
      (cloudMarch cfg ro rd sunDir skyColor dfStart dfEnd dfSize n c t).2 ≤ n := by
  intro n
  induction n with
  | zero => intro c t; exact le_refl 0
  | succ n ih =>
    intro c t
    simp only [cloudMarch]
    split_ifs <;> dsimp only <;>
      first
        | omega
        | exact Nat.succ_le_succ (ih _ _)

/-- C5. Ray-march termination: for every uniform configuration — including
degenerate ones such as `tMin > tMax` or `stepSize ≤ 0` — and every ray, the
primary march of `raymarching` executes at most 200 loop-body iterations, and
every secondary sun march started with fuel 50 executes at most 50 iterations;
the result is always an ordinary value of the model (all definitions are
total), never an error or non-termination. -/
theorem C5_raymarch_terminates :
    ∀ (cfg : CloudConfig) (ro rd sunDir skyColor : Vec3),
      raymarchingSteps cfg ro rd sunDir skyColor ≤ 200 ∧
      ∀ (currentPos : Vec3) (dfStart dfEnd dfSize tsun densityToSun : ℝ),
        (sunMarch cfg sunDir currentPos dfStart dfEnd dfSize 50 tsun densityToSun).2 ≤ 50 :=
  fun cfg ro rd sunDir skyColor =>
    ⟨cloudMarch_count_le cfg ro rd sunDir skyColor _ _ _ 200 ⟨0, 0, 0, 0⟩ _,
      fun currentPos dfStart dfEnd dfSize tsun densityToSun =>
        sunMarch_count_le cfg sunDir currentPos dfStart dfEnd dfSize 50 tsun densityToSun⟩

lemma vadd3_zero_left (v : Vec3) : vadd3 ⟨0, 0, 0⟩ v = v := by
  simp [vadd3]

lemma glLength3_smul (t : ℝ) (v : Vec3) : glLength3 (smul3 t v) = |t| * glLength3 v := by
  simp only [glLength3, smul3]
  rw [show t * v.x * (t * v.x) + t * v.y * (t * v.y) + t * v.z * (t * v.z) =
      t ^ 2 * (v.x * v.x + v.y * v.y + v.z * v.z) by ring,
    Real.sqrt_mul (sq_nonneg t), Real.sqrt_sq_eq_abs]

/-- C6. Falloff boundary: with ray origin at the volume center `(0,0,0)` and a
unit ray direction, the near-field falloff applied by `raymarching` at the
sample taken at ray parameter `t` (where
`densityFalloffStart = length(ro + rd*densityFalloffDistance)`,
`densityFalloffEnd = length(ro + rd*tMin)` and
`densityFalloffSize` is their difference) leaves the density unchanged at
`t = densityFalloffDistance` (multiplier 1, the falloff branch is not taken),
reduces it to 0 at `t = tMin` (multiplier 0), and scales it by the linear ramp
`(t - tMin) / (densityFalloffDistance - tMin)` in between. -/
theorem C6_falloff_boundary (ro rd : Vec3) (tmin dfd d : ℝ)
    (hro : ro = ⟨0, 0, 0⟩) (hrd : glLength3 rd = 1) (h0 : 0 ≤ tmin) (hlt : tmin < dfd) :
    falloffDensity d (glLength3 (vadd3 ro (smul3 dfd rd)))
        (glLength3 (vadd3 ro (smul3 dfd rd))) (glLength3 (vadd3 ro (smul3 tmin rd)))
        (glLength3 (vadd3 ro (smul3 dfd rd)) - glLength3 (vadd3 ro (smul3 tmin rd))) = d ∧
    falloffDensity d (glLength3 (vadd3 ro (smul3 tmin rd)))
        (glLength3 (vadd3 ro (smul3 dfd rd))) (glLength3 (vadd3 ro (smul3 tmin rd)))
        (glLength3 (vadd3 ro (smul3 dfd rd)) - glLength3 (vadd3 ro (smul3 tmin rd))) = 0 ∧
    ∀ t : ℝ, tmin ≤ t → t < dfd →
      falloffDensity d (glLength3 (vadd3 ro (smul3 t rd)))
          (glLength3 (vadd3 ro (smul3 dfd rd))) (glLength3 (vadd3 ro (smul3 tmin rd)))
          (glLength3 (vadd3 ro (smul3 dfd rd)) - glLength3 (vadd3 ro (smul3 tmin rd))) =
        d * ((t - tmin) / (dfd - tmin)) := by
  subst hro
  have hlen : ∀ t : ℝ, 0 ≤ t → glLength3 (vadd3 ⟨0, 0, 0⟩ (smul3 t rd)) = t := by
    intro t ht
    rw [vadd3_zero_left, glLength3_smul, hrd, mul_one, abs_of_nonneg ht]
  rw [hlen dfd (le_trans h0 (le_of_lt hlt)), hlen tmin h0]
  refine ⟨?_, ?_, ?_⟩
  · rw [falloffDensity, if_neg (lt_irrefl dfd)]
  · rw [falloffDensity, if_pos hlt, glMix, sub_self, zero_div]
    ring
  · intro t ht1 ht2
    rw [hlen t (le_trans h0 ht1), falloffDensity, if_pos ht2, glMix]
    ring

/-- Witness for C6: ray origin `(0,0,0)`, unit direction `(0,0,-1)`,
`tMin = 1`, `densityFalloffDistance = 2`, density `1/2`. -/
theorem C6_falloff_boundary_witness :
    glLength3 ⟨0, 0, -1⟩ = 1 ∧ (0 : ℝ) ≤ 1 ∧ (1 : ℝ) < 2 ∧
    (falloffDensity (1/2) (glLength3 (vadd3 ⟨0, 0, 0⟩ (smul3 2 ⟨0, 0, -1⟩)))
        (glLength3 (vadd3 ⟨0, 0, 0⟩ (smul3 2 ⟨0, 0, -1⟩)))
        (glLength3 (vadd3 ⟨0, 0, 0⟩ (smul3 1 ⟨0, 0, -1⟩)))
        (glLength3 (vadd3 ⟨0, 0, 0⟩ (smul3 2 ⟨0, 0, -1⟩)) -
          glLength3 (vadd3 ⟨0, 0, 0⟩ (smul3 1 ⟨0, 0, -1⟩))) = 1/2 ∧
      falloffDensity (1/2) (glLength3 (vadd3 ⟨0, 0, 0⟩ (smul3 1 ⟨0, 0, -1⟩)))
        (glLength3 (vadd3 ⟨0, 0, 0⟩ (smul3 2 ⟨0, 0, -1⟩)))
        (glLength3 (vadd3 ⟨0, 0, 0⟩ (smul3 1 ⟨0, 0, -1⟩)))
        (glLength3 (vadd3 ⟨0, 0, 0⟩ (smul3 2 ⟨0, 0, -1⟩)) -
          glLength3 (vadd3 ⟨0, 0, 0⟩ (smul3 1 ⟨0, 0, -1⟩))) = 0 ∧
      ∀ t : ℝ, 1 ≤ t → t < 2 →
        falloffDensity (1/2) (glLength3 (vadd3 ⟨0, 0, 0⟩ (smul3 t ⟨0, 0, -1⟩)))
          (glLength3 (vadd3 ⟨0, 0, 0⟩ (smul3 2 ⟨0, 0, -1⟩)))
          (glLength3 (vadd3 ⟨0, 0, 0⟩ (smul3 1 ⟨0, 0, -1⟩)))
          (glLength3 (vadd3 ⟨0, 0, 0⟩ (smul3 2 ⟨0, 0, -1⟩)) -
            glLength3 (vadd3 ⟨0, 0, 0⟩ (smul3 1 ⟨0, 0, -1⟩))) =
          (1/2) * ((t - 1) / (2 - 1))) := by
  have hlen : glLength3 ⟨0, 0, -1⟩ = 1 := by
    simp [glLength3]
  exact ⟨hlen, by norm_num, by norm_num,
    C6_falloff_boundary ⟨0, 0, 0⟩ ⟨0, 0, -1⟩ 1 2 (1/2) rfl hlen (by norm_num) (by norm_num)⟩

/-- A concrete uniform configuration used to instantiate the determinism
theorem: every numeric setting 1, black palette, constant-zero noise texture. -/
noncomputable def witnessConfig : CloudConfig :=
  { dimension := 1
    rowLength := 1
    sampler := fun _ => ⟨0, 0, 0, 0⟩
    noise1InputSettings := ⟨0, 0, 0, 1⟩
    noise1OutputSettings := ⟨1, 0⟩
    noise2InputSettings := ⟨0, 0, 0, 1⟩
    noise2OutputSettings := ⟨1, 0⟩
    noise3InputSettings := ⟨0, 0, 0, 1⟩
    noise3OutputSettings := ⟨1, 0⟩
    noise4InputSettings := ⟨0, 0, 0, 1⟩
    noise4OutputSettings := ⟨1, 0⟩
    noise5InputSettings := ⟨0, 0, 0, 1⟩
    noise5OutputSettings := ⟨1, 0⟩
    stepSettings := ⟨1, 2, 3, 1⟩
    skyColor := ⟨0, 0, 0⟩
    darkColor := ⟨0, 0, 0⟩
    lightColor := ⟨1, 1, 1⟩
    sunDir := ⟨0, 1, 0⟩
    sunStepSettings := ⟨1, 1⟩
    lightAbsorption := 1
    fog := 1 }

/-- C8. Determinism of the density model: the per-texel pixel computation
(shader `main`, which composes `raymarching` and `sampleLayeredDensity`) is a
pure function of the interpolated vertex position (which determines the
texel's ray direction) and the uniform configuration (noise volume sampler,
step settings, colors, sun direction, absorption, fog, and all five
noise-layer settings): two evaluations on equal inputs produce identical
output, so re-running a bake with fixed inputs reproduces identical tiles. -/
theorem C8_determinism (cfg1 cfg2 : CloudConfig) (v1 v2 : Vec4)
    (hc : cfg1 = cfg2) (hv : v1 = v2) :
    shaderMain cfg1 v1 = shaderMain cfg2 v2 := by
  rw [hc, hv]

/-- Witness for C8: the determinism theorem applied at the concrete
configuration and vertex position. -/
theorem C8_determinism_witness :
    shaderMain witnessConfig ⟨0, 0, -1, 1⟩ = shaderMain witnessConfig ⟨0, 0, -1, 1⟩ :=
  C8_determinism witnessConfig witnessConfig ⟨0, 0, -1, 1⟩ ⟨0, 0, -1, 1⟩ rfl rfl

/-! ## Noise regeneration (loadNewNoise, clouds.js lines 1232-1257) -/

/-- Constant `noiseBaseDimension` in `clouds.js`. -/
def noiseBaseDimension : ℕ := 16

/-- Constant `noiseBaseRowLength` in `clouds.js`. -/
def noiseBaseRowLength : ℕ := 4

/-- Constant `textureDimension` in `clouds.js` (`noiseBaseDimension * noiseBaseRowLength`). -/
def textureDimension : ℕ := 64

/-- The texture data array built by the fill loop of `loadNewNoise` after `k`
loop iterations. The source loop steps `i` by 4 and writes entries
`i .. i+3`: three `Math.floor(Math.random() * 256.0)` bytes and the constant
alpha byte 255. `rand n` models the value in `[0,1)` returned by the `n`-th
`Math.random()` call. -/
def noiseFill (rand : ℕ → ℚ) : ℕ → List ℤ
  | 0 => []
  | k + 1 => noiseFill rand k ++
      [⌊rand (3 * k) * 256⌋, ⌊rand (3 * k + 1) * 256⌋, ⌊rand (3 * k + 2) * 256⌋, 255]

/-- Function `loadNewNoise` of `clouds.js`: the texture payload uploaded by
`texImage2D` — a fresh array of `textureDimension × textureDimension` texels
of 4 bytes each, built solely from fresh `Math.random()` draws (and constant
alpha), with no dependence on previous texture contents. -/
def loadNewNoise (rand : ℕ → ℚ) : List ℤ :=
  noiseFill rand (textureDimension * textureDimension)

lemma noiseFill_length (rand : ℕ → ℚ) : ∀ k, (noiseFill rand k).length = 4 * k := by
  intro k
  induction k with
  | zero => rfl
  | succ k ih => simp [noiseFill, ih]; omega

lemma noiseFill_get (rand : ℕ → ℚ) :
    ∀ k i, i < 4 * k →
      (noiseFill rand k).get? i =
        some (if i % 4 = 3 then 255 else ⌊rand (3 * (i / 4) + i % 4) * 256⌋) := by
  intro k
  induction k with
  | zero => intro i h; omega
  | succ k ih =>
    intro i h
    rw [noiseFill]
    by_cases hi : i < 4 * k
    · rw [List.get?_append (by rw [noiseFill_length]; exact hi)]
      exact ih i hi
    · have hlen : (noiseFill rand k).length = 4 * k := noiseFill_length rand k
      have hge : (noiseFill rand k).length ≤ i := by omega
      rw [List.get?_append_right hge]
      rw [hlen]
      have h4 : i - 4 * k = 0 ∨ i - 4 * k = 1 ∨ i - 4 * k = 2 ∨ i - 4 * k = 3 := by omega
      rcases h4 with h4 | h4 | h4 | h4 <;> rw [h4] <;>
        first
          | (have hm : i % 4 = 0 := by omega
             have hd : i / 4 = k := by omega
             rw [hm, hd]
             norm_num)
          | (have hm : i % 4 = 1 := by omega
             have hd : i / 4 = k := by omega
             rw [hm, hd]
             norm_num)
          | (have hm : i % 4 = 2 := by omega
             have hd : i / 4 = k := by omega
             rw [hm, hd]
             norm_num)
          | (have hm : i % 4 = 3 := by omega
             rw [hm]
             norm_num)

/-- C9 counterexample: the alpha channel of the first texel is 255 no matter
what `Math.random` returns — under the all-zero random stream the uniform-
random-byte reading would require the value `⌊0 * 256⌋ = 0` there, yet the
code writes 255; a color channel (index 2) does follow the stream. So not
every channel of every texel receives an independent uniform-random byte. -/
theorem C9_counterexample :
    (loadNewNoise (fun _ => 0)).get? 3 = some 255 ∧
    (loadNewNoise (fun _ => 1/2)).get? 3 = some 255 ∧
    (loadNewNoise (fun _ => 0)).get? 2 = some 0 ∧
    (loadNewNoise (fun _ => 1/2)).get? 2 = some 128 ∧
    (255 : ℤ) ≠ ⌊(0 : ℚ) * 256⌋ := by
  have h3a := noiseFill_get (fun _ => 0) (textureDimension * textureDimension) 3 (by norm_num [textureDimension])
  have h3b := noiseFill_get (fun _ => 1/2) (textureDimension * textureDimension) 3 (by norm_num [textureDimension])
  have h2a := noiseFill_get (fun _ => 0) (textureDimension * textureDimension) 2 (by norm_num [textureDimension])
  have h2b := noiseFill_get (fun _ => 1/2) (textureDimension * textureDimension) 2 (by norm_num [textureDimension])
  refine ⟨?_, ?_, ?_, ?_, by norm_num⟩
  · rw [loadNewNoise, h3a]; norm_num
  · rw [loadNewNoise, h3b]; norm_num
  · rw [loadNewNoise, h2a]
    norm_num
  · rw [loadNewNoise, h2b]
    norm_num

/-- C9 (amended). Noise regeneration: each `loadNewNoise` call produces a
fresh full-texture payload — exactly `textureDimension × textureDimension × 4`
bytes, with no dependence on previous contents — in which each of the three
color channels of every texel is an independent uniform-random byte
`⌊rand · * 256⌋` drawn from its own `Math.random()` call (the draw index
`3*(i/4) + i%4` is injective over color-channel entries), while the alpha
channel of every texel is the constant 255. -/
theorem C9_noise_regeneration (rand : ℕ → ℚ) :
    (loadNewNoise rand).length = 4 * (textureDimension * textureDimension) ∧
    (∀ i, i < 4 * (textureDimension * textureDimension) →
      (loadNewNoise rand).get? i =
        some (if i % 4 = 3 then 255 else ⌊rand (3 * (i / 4) + i % 4) * 256⌋)) ∧
    (∀ i j : ℕ, i % 4 ≠ 3 → j % 4 ≠ 3 → i ≠ j →
      3 * (i / 4) + i % 4 ≠ 3 * (j / 4) + j % 4) :=
  ⟨noiseFill_length rand _,
    fun i h => noiseFill_get rand _ i h,
    fun i j hi hj hij => by omega⟩

/-- Witness for C9: the amended theorem instantiated at the all-zero random
stream and entry 0 (a red channel, value `⌊0 * 256⌋`). -/
theorem C9_noise_regeneration_witness :
    (loadNewNoise (fun _ => (0 : ℚ))).length = 4 * (textureDimension * textureDimension) ∧
    (loadNewNoise (fun _ => (0 : ℚ))).get? 0 =
      some (if 0 % 4 = 3 then 255 else ⌊(0 : ℚ) * 256⌋) :=
  ⟨(C9_noise_regeneration (fun _ => 0)).1,
    (C9_noise_regeneration (fun _ => 0)).2.1 0 (by norm_num [textureDimension])⟩
/-! ## hexToColor (clouds.js lines 1710-1789) -/

/-- The `switch (hex.charAt(charIndex))` of `hexToColor`: the value added for
one hex digit character; any other character (uppercase hex digits included)
falls through to the `default` branch and contributes 0. -/
def hexCharVal (c : Char) : ℚ :=
  if c = '0' then 0
  else if c = '1' then 1
  else if c = '2' then 2
  else if c = '3' then 3
  else if c = '4' then 4
  else if c = '5' then 5
  else if c = '6' then 6
  else if c = '7' then 7
  else if c = '8' then 8
  else if c = '9' then 9
  else if c = 'a' then 10
  else if c = 'b' then 11
  else if c = 'c' then 12
  else if c = 'd' then 13
  else if c = 'e' then 14
  else if c = 'f' then 15
  else 0

/-- Lookup `hex.charAt(charIndex)` fed through the switch: JavaScript `charAt` out of
range returns the empty string, which also falls to the `default` branch. -/
def charAtVal (s : List Char) (i : ℕ) : ℚ :=
  match s.get? i with
  | some c => hexCharVal c
  | none => 0

/-- The two-digit inner loop of `hexToColor` for one color component starting
at `charIndex` (successive states of the mutable `value`), followed by the
clamp to `[0, 256]` and the division by 256. -/
def hexComponent (s : List Char) (charIndex : ℕ) : ℚ :=
  let v1 := (0 : ℚ) * 16 + charAtVal s charIndex
  let v2 := v1 * 16 + charAtVal s (charIndex + 1)
  let v3 := if v2 < 0 then 0 else v2
  let v4 := if v3 > 256 then 256 else v3
  v4 / 256

/-- Function `hexToColor` of `clouds.js`: characters 1-2, 3-4 and 5-6 of the input
(character 0 is the `#`) give the three color components written to
`colorVec`. -/
def hexToColor (s : List Char) : ℚ × ℚ × ℚ :=
  (hexComponent s 1, hexComponent s 3, hexComponent s 5)

/-- The sixteen characters recognized by the switch of `hexToColor`: the
decimal digits (code points 48-57) followed by the lowercase letters a-f
(code points 97-102). -/
def hexDigits : List Char :=
  (List.range 10).map (fun n => Char.ofNat (48 + n)) ++
    (List.range 6).map (fun n => Char.ofNat (97 + n))

lemma hexCharVal_mem (c : Char) : 0 ≤ hexCharVal c ∧ hexCharVal c ≤ 15 := by
  rw [hexCharVal]
  by_cases h0 : c = '0'
  · rw [if_pos h0]; norm_num
  rw [if_neg h0]
  by_cases h1 : c = '1'
  · rw [if_pos h1]; norm_num
  rw [if_neg h1]
  by_cases h2 : c = '2'
  · rw [if_pos h2]; norm_num
  rw [if_neg h2]
  by_cases h3 : c = '3'
  · rw [if_pos h3]; norm_num
  rw [if_neg h3]
  by_cases h4 : c = '4'
  · rw [if_pos h4]; norm_num
  rw [if_neg h4]
  by_cases h5 : c = '5'
  · rw [if_pos h5]; norm_num
  rw [if_neg h5]
  by_cases h6 : c = '6'
  · rw [if_pos h6]; norm_num
  rw [if_neg h6]
  by_cases h7 : c = '7'
  · rw [if_pos h7]; norm_num
  rw [if_neg h7]
  by_cases h8 : c = '8'
  · rw [if_pos h8]; norm_num
  rw [if_neg h8]
  by_cases h9 : c = '9'
  · rw [if_pos h9]; norm_num
  rw [if_neg h9]
  by_cases ha : c = 'a'
  · rw [if_pos ha]; norm_num
  rw [if_neg ha]
  by_cases hb : c = 'b'
  · rw [if_pos hb]; norm_num
  rw [if_neg hb]
  by_cases hcc : c = 'c'
  · rw [if_pos hcc]; norm_num
  rw [if_neg hcc]
  by_cases hd : c = 'd'
  · rw [if_pos hd]; norm_num
  rw [if_neg hd]
  by_cases he : c = 'e'
  · rw [if_pos he]; norm_num
  rw [if_neg he]
  by_cases hf : c = 'f'
  · rw [if_pos hf]; norm_num
  rw [if_neg hf]
  norm_num

lemma hexCharVal_not_mem {c : Char} (hc : c ∉ hexDigits) : hexCharVal c = 0 := by
  have h0 : ¬ c = '0' := by intro h; subst h; exact hc (by decide)
  have h1 : ¬ c = '1' := by intro h; subst h; exact hc (by decide)
  have h2 : ¬ c = '2' := by intro h; subst h; exact hc (by decide)
  have h3 : ¬ c = '3' := by intro h; subst h; exact hc (by decide)
  have h4 : ¬ c = '4' := by intro h; subst h; exact hc (by decide)
  have h5 : ¬ c = '5' := by intro h; subst h; exact hc (by decide)
  have h6 : ¬ c = '6' := by intro h; subst h; exact hc (by decide)
  have h7 : ¬ c = '7' := by intro h; subst h; exact hc (by decide)
  have h8 : ¬ c = '8' := by intro h; subst h; exact hc (by decide)
  have h9 : ¬ c = '9' := by intro h; subst h; exact hc (by decide)
  have ha : ¬ c = 'a' := by intro h; subst h; exact hc (by decide)
  have hb : ¬ c = 'b' := by intro h; subst h; exact hc (by decide)
  have hcc : ¬ c = 'c' := by intro h; subst h; exact hc (by decide)
  have hd : ¬ c = 'd' := by intro h; subst h; exact hc (by decide)
  have he : ¬ c = 'e' := by intro h; subst h; exact hc (by decide)
  have hf : ¬ c = 'f' := by intro h; subst h; exact hc (by decide)
  rw [hexCharVal, if_neg h0, if_neg h1, if_neg h2, if_neg h3, if_neg h4, if_neg h5,
    if_neg h6, if_neg h7, if_neg h8, if_neg h9, if_neg ha, if_neg hb, if_neg hcc,
    if_neg hd, if_neg he, if_neg hf]

lemma charAtVal_mem (s : List Char) (i : ℕ) : 0 ≤ charAtVal s i ∧ charAtVal s i ≤ 15 := by
  rw [charAtVal]
  cases s.get? i with
  | none => norm_num
  | some c => exact hexCharVal_mem c

lemma hexComponent_mem (s : List Char) (i : ℕ) :
    0 ≤ hexComponent s i ∧ hexComponent s i ≤ 255/256 := by
  obtain ⟨ha0, ha15⟩ := charAtVal_mem s i
  obtain ⟨hb0, hb15⟩ := charAtVal_mem s (i + 1)
  simp only [hexComponent]
  rw [if_neg (not_lt.mpr
    (show (0:ℚ) ≤ ((0:ℚ) * 16 + charAtVal s i) * 16 + charAtVal s (i + 1) by linarith))]
  rw [if_neg (not_lt.mpr
    (show ((0:ℚ) * 16 + charAtVal s i) * 16 + charAtVal s (i + 1) ≤ (256:ℚ) by linarith))]
  constructor
  · exact div_nonneg (by linarith) (by norm_num)
  · rw [div_le_div_iff (by norm_num) (by norm_num)]
    linarith

lemma hexComponent_ff (s : List Char) (i : ℕ)
    (h1 : charAtVal s i = 15) (h2 : charAtVal s (i + 1) = 15) :
    hexComponent s i = 255/256 := by
  simp only [hexComponent, h1, h2]
  norm_num

/-- C10. For every input character list, each of the three color components
produced by `hexToColor` lies in `[0, 255/256]` — in particular strictly below
1, with the characters of `"#ffffff"` yielding exactly `255/256` per channel —
and any character outside `0-9a-f` (uppercase hex digits included) contributes
0 through the switch's default branch, so every component is a well-defined
rational number. -/
theorem C10_hexToColor_range :
    (∀ s : List Char,
      0 ≤ (hexToColor s).1 ∧ (hexToColor s).1 ≤ 255/256 ∧
      0 ≤ (hexToColor s).2.1 ∧ (hexToColor s).2.1 ≤ 255/256 ∧
      0 ≤ (hexToColor s).2.2 ∧ (hexToColor s).2.2 ≤ 255/256) ∧
    ((255 : ℚ)/256 < 1) ∧
    (∀ c : Char, c ∉ hexDigits → hexCharVal c = 0) ∧
    hexToColor ['#', 'f', 'f', 'f', 'f', 'f', 'f'] = (255/256, 255/256, 255/256) := by
  refine ⟨?_, by norm_num, fun c hc => hexCharVal_not_mem hc, ?_⟩
  · intro s
    obtain ⟨h1, h2⟩ := hexComponent_mem s 1
    obtain ⟨h3, h4⟩ := hexComponent_mem s 3
    obtain ⟨h5, h6⟩ := hexComponent_mem s 5
    exact ⟨h1, h2, h3, h4, h5, h6⟩
  · rw [hexToColor,
      hexComponent_ff ['#', 'f', 'f', 'f', 'f', 'f', 'f'] 1 rfl rfl,
      hexComponent_ff ['#', 'f', 'f', 'f', 'f', 'f', 'f'] 3 rfl rfl,
      hexComponent_ff ['#', 'f', 'f', 'f', 'f', 'f', 'f'] 5 rfl rfl]

/-- Witness for C10: the uppercase character `A` is outside `0-9a-f` and
contributes 0 through the default branch. -/
theorem C10_hexToColor_range_witness :
    'A' ∉ hexDigits ∧ hexCharVal 'A' = 0 :=
  ⟨by decide, C10_hexToColor_range.2.2.1 'A' (by decide)⟩
